import Mathlib

/-!
Shallow embedding of the Tempest time-integration slice under verification:

* `BaroclinicWaveJWTest` from BaroclinicWaveTest.cpp (topography, the
  geopotential/temperature profile, the Newton inversion `EtaFromRLL`, and
  the reference/pointwise state evaluators);
* the ARS343 timestep scheme header TimestepSchemeARS343.h;
* the ARKode adapter header TimestepSchemeARKode.h.

Machine doubles are modelled as exact rationals.  The transcendental
library functions (sin, cos, acos, sqrt, exp, log, pow) and the constant
M_PI are abstracted into an explicit table `MathFns`, so every theorem
quantifies over them: the properties at stake are structural (control
flow, which array entries are written, which arguments are used) and do
not depend on the numeric values of those functions.  Fallible C++ code
(`_EXCEPTIONT`) is modelled with `Except String`, the error carrying the
exception's message text.
-/

/-- Abstract table of the floating-point math library functions used by
the test case, plus the constant M_PI.  The embedding is parametric in
these functions. -/
structure MathFns where
  mpi : ℚ
  rsin : ℚ → ℚ
  rcos : ℚ → ℚ
  racos : ℚ → ℚ
  rsqrt : ℚ → ℚ
  rexp : ℚ → ℚ
  rlog : ℚ → ℚ
  rpow : ℚ → ℚ → ℚ

/-- The accessors of the PhysicalConstants collaborator used by the test
case (PhysicalConstants.h is outside the slice; only its interface is
consumed).  `rhoThetaFromPressure` models the member function
`RhoThetaFromPressure`. -/
structure PhysicalConstants where
  g : ℚ
  r : ℚ
  omega : ℚ
  earthRadius : ℚ
  p0 : ℚ
  rhoThetaFromPressure : ℚ → ℚ

/-- BaroclinicWaveJWTest::PerturbationType (None = Default = 0, Exp = 1,
StreamFn = 2). -/
inductive PerturbationType where
  | PerturbationType_None
  | PerturbationType_Exp
  | PerturbationType_StreamFn
deriving DecidableEq

/-- The BaroclinicWaveJWTest test-case object: the ten `Param...` constants
set by the constructor's initializer list and the four constructor-supplied
members. -/
structure BaroclinicWaveJWTest where
  ParamEta0 : ℚ
  ParamTropopauseEta : ℚ
  ParamT0 : ℚ
  ParamDeltaT : ℚ
  ParamLapseRate : ℚ
  ParamU0 : ℚ
  ParamUp : ℚ
  ParamPertLon : ℚ
  ParamPertLat : ℚ
  ParamPertR : ℚ
  m_dAlpha : ℚ
  m_fTracerOn : Bool
  m_dZtop : ℚ
  m_ePerturbationType : PerturbationType

/-- The BaroclinicWaveJWTest constructor: fixes the `Param...` constants
(0.252, 0.2, 288.0, 4.8e5, 0.005, 35.0, 1.0, pi/9, 2 pi/9, 0.1 — written
as exact fractions) and stores the four arguments.  `mpi` stands for the
C constant M_PI. -/
def BaroclinicWaveJWTest.construct (mpi : ℚ) (dAlpha : ℚ) (fTracerOn : Bool)
    (dZtop : ℚ) (ePerturbationType : PerturbationType) : BaroclinicWaveJWTest :=
  { ParamEta0 := 63/250
    ParamTropopauseEta := 1/5
    ParamT0 := 288
    ParamDeltaT := 480000
    ParamLapseRate := 1/200
    ParamU0 := 35
    ParamUp := 1
    ParamPertLon := mpi / 9
    ParamPertLat := 2 * mpi / 9
    ParamPertR := 1/10
    m_dAlpha := dAlpha
    m_fTracerOn := fTracerOn
    m_dZtop := dZtop
    m_ePerturbationType := ePerturbationType }

/-- BaroclinicWaveJWTest::EvaluateTopography.  Note that the body never
reads `dLon`, exactly as in the source. -/
def BaroclinicWaveJWTest.EvaluateTopography (test : BaroclinicWaveJWTest)
    (tf : MathFns) (phys : PhysicalConstants) (dLon dLat : ℚ) : ℚ :=
  let _ := dLon
  let dAuxEta := 1/2 * tf.mpi * (1 - test.ParamEta0)
  let dSinLat := tf.rsin dLat
  let dSinLat2 := dSinLat * dSinLat
  let dSinLat3 := dSinLat * dSinLat2
  let dSinLat4 := dSinLat * dSinLat3
  let dSinLat5 := dSinLat * dSinLat4
  let dSinLat6 := dSinLat * dSinLat5
  let dCosLat := tf.rcos dLat
  let dCosLat2 := dCosLat * dCosLat
  let dCosLat3 := dCosLat * dCosLat2
  let _ := (dSinLat3, dSinLat4, dSinLat5)
  let dRefProfile1 :=
    test.ParamU0 * tf.rpow (tf.rcos dAuxEta) (3/2)
      * (-2 * dSinLat6 * (dCosLat2 + 1/3) + 10/63)
  let dRefProfile2 :=
    phys.earthRadius * phys.omega
      * (8/5 * dCosLat3 * (dSinLat2 + 2/3) - 1/4 * tf.mpi)
  let dSurfGeopotential :=
    test.ParamU0 * tf.rpow (tf.rcos dAuxEta) (3/2) *
      (dRefProfile1 + dRefProfile2)
  dSurfGeopotential / phys.g

/-- BaroclinicWaveJWTest::CalculateGeopotentialTemperature.  The two C++
output reference parameters become the returned pair
(geopotential, temperature). -/
def BaroclinicWaveJWTest.CalculateGeopotentialTemperature
    (test : BaroclinicWaveJWTest) (tf : MathFns) (phys : PhysicalConstants)
    (dEta dLon dLat : ℚ) : ℚ × ℚ :=
  let _ := dLon
  let dAuxEta := 1/2 * tf.mpi * (dEta - test.ParamEta0)
  let dAvgTemperature0 :=
    test.ParamT0 * tf.rpow dEta (phys.r * test.ParamLapseRate / phys.g)
  let dAvgTemperature :=
    if dEta < test.ParamTropopauseEta then
      dAvgTemperature0
        + test.ParamDeltaT * tf.rpow (test.ParamTropopauseEta - dEta) 5
    else dAvgTemperature0
  let dSinLat := tf.rsin dLat
  let dSinLat2 := dSinLat * dSinLat
  let dSinLat3 := dSinLat * dSinLat2
  let dSinLat4 := dSinLat * dSinLat3
  let dSinLat5 := dSinLat * dSinLat4
  let dSinLat6 := dSinLat * dSinLat5
  let dCosLat := tf.rcos dLat
  let dCosLat2 := dCosLat * dCosLat
  let dCosLat3 := dCosLat * dCosLat2
  let _ := (dSinLat3, dSinLat4, dSinLat5)
  let dRefProfile1 :=
    test.ParamU0 * tf.rpow (tf.rcos dAuxEta) (3/2)
      * (-2 * dSinLat6 * (dCosLat2 + 1/3) + 10/63)
  let dRefProfile2 :=
    phys.earthRadius * phys.omega
      * (8/5 * dCosLat3 * (dSinLat2 + 2/3) - 1/4 * tf.mpi)
  let dTemperature0 := 2 * dRefProfile1 + dRefProfile2
  let dTemperature :=
    dAvgTemperature
      + 3/4 * dEta * tf.mpi * test.ParamU0 / phys.r
        * tf.rsin dAuxEta * tf.rsqrt (tf.rcos dAuxEta) * dTemperature0
  let dAvgGeopotential0 :=
    test.ParamT0 * phys.g / test.ParamLapseRate
      * (1 - tf.rpow dEta (phys.r * test.ParamLapseRate / phys.g))
  let dAvgGeopotential :=
    if dEta < test.ParamTropopauseEta then
      let dEta2 := dEta * dEta
      let dEta3 := dEta * dEta2
      let dEta4 := dEta * dEta3
      let dEta5 := dEta * dEta4
      let dTropoEta := test.ParamTropopauseEta
      let dTropoEta2 := dTropoEta * dTropoEta
      let dTropoEta3 := dTropoEta * dTropoEta2
      let dTropoEta4 := dTropoEta * dTropoEta3
      let dTropoEta5 := dTropoEta * dTropoEta4
      dAvgGeopotential0 - phys.r * test.ParamDeltaT * (
        (tf.rlog (dEta / test.ParamTropopauseEta) + 137/60) * dTropoEta5
        - 5 * dTropoEta4 * dEta
        + 5 * dTropoEta3 * dEta2
        - 10/3 * dTropoEta2 * dEta3
        + 5/4 * dTropoEta * dEta4
        - 1/5 * dEta5)
    else dAvgGeopotential0
  let dGeopotential :=
    dAvgGeopotential
      + test.ParamU0 * tf.rpow (tf.rcos dAuxEta) (3/2)
        * (dRefProfile1 + dRefProfile2)
  (dGeopotential, dTemperature)

/-- One Newton update of EtaFromRLL's loop body: from the current iterate
`dEta`, compute `dF = -g dZ + geopotential(dEta)`,
`dDiffF = -R/dEta * temperature(dEta)` and return
`dEta - dF / dDiffF` (the `dNewEta` of the source). -/
def BaroclinicWaveJWTest.etaNewtonUpdate (test : BaroclinicWaveJWTest)
    (tf : MathFns) (phys : PhysicalConstants) (dZ dLon dLat dEta : ℚ) : ℚ :=
  let gt := test.CalculateGeopotentialTemperature tf phys dEta dLon dLat
  let dF := - phys.g * dZ + gt.1
  let dDiffF := - phys.r / dEta * gt.2
  dEta - dF / dDiffF

/-- The sequence of Newton iterates of EtaFromRLL starting from `e0`
(`newtonIterate ... e0 n` is the n-th iterate). -/
def BaroclinicWaveJWTest.newtonIterate (test : BaroclinicWaveJWTest)
    (tf : MathFns) (phys : PhysicalConstants) (dZ dLon dLat e0 : ℚ) : ℕ → ℚ
  | 0 => e0
  | n + 1 =>
    test.etaNewtonUpdate tf phys dZ dLon dLat
      (test.newtonIterate tf phys dZ dLon dLat e0 n)

/-- The `for (i = 0; i < MaxIterations; i++)` loop of EtaFromRLL.  The
loop counter `i` and the remaining iteration budget `fuel` are carried
separately (the source runs `fuel = MaxIterations - i` more iterations);
the state `(dEta, dGeopotential, dTemperature)` carries the iterate and
the two output parameters last written by
`CalculateGeopotentialTemperature`.  `Sum.inl` is the early
`return dNewEta` taken when `fabs(dEta - dNewEta) < Convergence`;
`Sum.inr (i, st)` is normal loop exit with final counter `i`. -/
def BaroclinicWaveJWTest.etaLoop (test : BaroclinicWaveJWTest) (tf : MathFns)
    (phys : PhysicalConstants) (dZ dLon dLat : ℚ) :
    ℕ → ℕ → ℚ × ℚ × ℚ → (ℚ × ℚ × ℚ) ⊕ (ℕ × (ℚ × ℚ × ℚ))
  | i, 0, st => Sum.inr (i, st)
  | i, fuel + 1, (dEta, _, _) =>
    let gt := test.CalculateGeopotentialTemperature tf phys dEta dLon dLat
    let dNewEta := test.etaNewtonUpdate tf phys dZ dLon dLat dEta
    if |dEta - dNewEta| < 1/10^13 then Sum.inl (dNewEta, gt.1, gt.2)
    else
      test.etaLoop tf phys dZ dLon dLat (i + 1) fuel (dNewEta, gt.1, gt.2)

/-- BaroclinicWaveJWTest::EtaFromRLL.  MaxIterations = 25,
InitialEta = 1.0e-7, Convergence = 1.0e-13 (exact fractions).  The
result triple is (returned eta, geopotential, temperature); the two
trailing components model the C++ output reference parameters.  The
post-loop code is embedded as in the source: the `i == MaxIterations`
check raising "Maximum number of iterations exceeded.", then the range
check on eta raising "Invalid Eta value", then a final normal return. -/
def BaroclinicWaveJWTest.EtaFromRLL (test : BaroclinicWaveJWTest)
    (tf : MathFns) (phys : PhysicalConstants) (dZ dLon dLat : ℚ) :
    Except String (ℚ × ℚ × ℚ) :=
  match test.etaLoop tf phys dZ dLon dLat 0 25 (1/10^7, 0, 0) with
  | Sum.inl out => Except.ok out
  | Sum.inr (i, (dEta, dGeo, dTemp)) =>
    if i = 25 then Except.error "Maximum number of iterations exceeded."
    else if dEta > 1 ∨ dEta < 0 then Except.error "Invalid Eta value"
    else Except.ok (dEta, dGeo, dTemp)

/-- A state or tracer array (`double *`), indexed pointwise. -/
def StateVec : Type := ℕ → ℚ

/-- BaroclinicWaveJWTest::EvaluateReferenceState.  Writes entries 0
(zonal velocity), 2 (potential temperature) and 4 (density) of the state
array; an exception from EtaFromRLL propagates. -/
def BaroclinicWaveJWTest.EvaluateReferenceState (test : BaroclinicWaveJWTest)
    (tf : MathFns) (phys : PhysicalConstants) (dZ dLon dLat : ℚ)
    (dState : StateVec) : Except String StateVec :=
  match test.EtaFromRLL tf phys dZ dLon dLat with
  | Except.error msg => Except.error msg
  | Except.ok (dEta, _, dTemperature) =>
    let dUlon :=
      test.ParamU0 * tf.rpow (tf.rcos (1/2 * tf.mpi * (dEta - test.ParamEta0))) (3/2)
        * tf.rsin (2 * dLat) * tf.rsin (2 * dLat)
    let s0 : StateVec := fun i => if i = 0 then dUlon else dState i
    let dPressure := phys.p0 * dEta
    let dRho := dPressure / (phys.r * dTemperature)
    let dRhoTheta := phys.rhoThetaFromPressure dPressure
    let s2 : StateVec := fun i => if i = 2 then dRhoTheta / dRho else s0 i
    let s4 : StateVec := fun i => if i = 4 then dRho else s2 i
    Except.ok s4

/-- The scaled great-circle distance of EvaluatePointwiseState: the
`acos(...)` expression divided by ParamPertR. -/
def BaroclinicWaveJWTest.greatCircleRScaled (test : BaroclinicWaveJWTest)
    (tf : MathFns) (dLon dLat : ℚ) : ℚ :=
  tf.racos (tf.rsin test.ParamPertLat * tf.rsin dLat
      + tf.rcos test.ParamPertLat * tf.rcos dLat
        * tf.rcos (dLon - test.ParamPertLon))
    / test.ParamPertR

/-- BaroclinicWaveJWTest::EvaluatePointwiseState.  Evaluates the
reference state, then, only for PerturbationType_Exp and only when the
scaled great-circle distance is below 1, adds the zonal-velocity
perturbation to entry 0.  The tracer array is returned untouched (the
source never writes through `dTracer`); `time` is accepted and unused as
in the source. -/
def BaroclinicWaveJWTest.EvaluatePointwiseState (test : BaroclinicWaveJWTest)
    (tf : MathFns) (phys : PhysicalConstants) (time : ℚ) (dZ dLon dLat : ℚ)
    (dState dTracer : StateVec) : Except String (StateVec × StateVec) :=
  match test.EvaluateReferenceState tf phys dZ dLon dLat dState with
  | Except.error msg => Except.error msg
  | Except.ok s =>
    if test.m_ePerturbationType = PerturbationType.PerturbationType_Exp then
      if test.greatCircleRScaled tf dLon dLat < 1 then
        Except.ok
          (fun i =>
            if i = 0 then
              s 0 + test.ParamUp
                * tf.rexp (- test.greatCircleRScaled tf dLon dLat
                    * test.greatCircleRScaled tf dLon dLat)
            else s i,
           dTracer)
      else Except.ok (s, dTracer)
    else Except.ok (s, dTracer)

/-- Pointwise sum of two state buffers. -/
def vadd (u v : StateVec) : StateVec := fun i => u i + v i

/-- Pointwise scaling of a state buffer. -/
def vsmul (c : ℚ) (u : StateVec) : StateVec := fun i => c * u i

/-- The RHS Evaluator contract consumed by the schemes (spec section 6):
explicit tendency, implicit tendency, and the implicit correction
`SolveImplicit(perturbation, subDeltaT, time)`. -/
structure RHSEvaluator where
  evaluateExplicitRHS : StateVec → ℚ → StateVec
  evaluateImplicitRHS : StateVec → ℚ → StateVec
  solveImplicit : StateVec → ℚ → ℚ → StateVec

/-- Modelled from the spec: the numeric values of the static coefficient
members of TimestepSchemeARS343 (`m_dgamma`, `m_ddelta`, `m_dTimeCf`,
`m_dExpCf`, `m_dImpCf`) are defined in TimestepSchemeARS343.cpp, which is
not under src (the header only declares them); the spec records only that
they are fixed compile-time constants of the published ARS343 Butcher
tables, so they are carried as an abstract coefficient record. -/
structure ARS343Coeffs where
  m_dgamma : ℚ
  m_ddelta : ℚ
  m_dTimeCf : Fin 3 → ℚ
  m_dExpCf : Fin 5 → Fin 5 → ℚ
  m_dImpCf : Fin 5 → Fin 5 → ℚ

/-- The TimestepSchemeARS343 object: its eleven DataVector stage
combination buffers (TimestepSchemeARS343.h). -/
structure TimestepSchemeARS343 where
  m_dK0Combo : StateVec
  m_du1fCombo : StateVec
  m_dK1Combo : StateVec
  m_dKh1Combo : StateVec
  m_du2fCombo : StateVec
  m_dK2Combo : StateVec
  m_dKh2Combo : StateVec
  m_du3fCombo : StateVec
  m_dK3Combo : StateVec
  m_dKh3Combo : StateVec
  m_du4fCombo : StateVec

/-- TimestepSchemeARS343::GetComponentDataInstances (returns 10 for every
object and every call). -/
def TimestepSchemeARS343.GetComponentDataInstances
    (_ : TimestepSchemeARS343) : Int := 10

/-- TimestepSchemeARS343::GetTracerDataInstances (returns 10 for every
object and every call). -/
def TimestepSchemeARS343.GetTracerDataInstances
    (_ : TimestepSchemeARS343) : Int := 10

/-- Modelled from the spec: the body of TimestepSchemeARS343::Step lives
in TimestepSchemeARS343.cpp, which is not under src (the header only
declares `Step(fFirstStep, fLastStep, time, dDeltaT)`).  Spec section 4.2
describes the four-stage IMEX algorithm; the exact linear-combination
coefficients are drawn from the abstract `ARS343Coeffs` record.  Per the
spec, `fFirstStep`/`fLastStep` are accepted but do not alter the per-step
algorithm: they do not occur in the body below.  The stage combination
buffers are overwritten in the returned scheme object, and the new state
`du4fCombo` is returned alongside it. -/
def TimestepSchemeARS343.Step (s : TimestepSchemeARS343) (cf : ARS343Coeffs)
    (ev : RHSEvaluator) (fFirstStep fLastStep : Bool) (time dDeltaT : ℚ)
    (u : StateVec) : TimestepSchemeARS343 × StateVec :=
  let _ := (fFirstStep, fLastStep, s)
  -- Stage 0: explicit RHS of the incoming state, scaled by the first
  -- explicit sub-diagonal coefficient; implicit correction at gamma*dt.
  let dK0Combo := vsmul (cf.m_dExpCf 1 0) (ev.evaluateExplicitRHS u time)
  let du1fCombo :=
    ev.solveImplicit (vadd u (vsmul (cf.m_dgamma * dDeltaT) dK0Combo))
      (cf.m_dgamma * dDeltaT) time
  -- Stage 1: explicit RHS at u1f; combine with K0; implicit correction
  -- at the sub-step implied by the table's second row.
  let dKh1Combo := ev.evaluateExplicitRHS du1fCombo (time + cf.m_dTimeCf 0 * dDeltaT)
  let dK1Combo :=
    vadd (vsmul (cf.m_dImpCf 1 1) dK0Combo) (vsmul (cf.m_dExpCf 2 1) dKh1Combo)
  let du2fCombo :=
    ev.solveImplicit (vadd u (vsmul dDeltaT dK1Combo))
      (cf.m_dImpCf 2 2 * dDeltaT) time
  -- Stage 2: explicit RHS at u2f; combine; implicit correction at the
  -- third sub-step.
  let dKh2Combo := ev.evaluateExplicitRHS du2fCombo (time + cf.m_dTimeCf 1 * dDeltaT)
  let dK2Combo :=
    vadd (vadd (vsmul (cf.m_dImpCf 2 2) dK1Combo)
      (vsmul (cf.m_dExpCf 3 1) dKh1Combo)) (vsmul (cf.m_dExpCf 3 2) dKh2Combo)
  let du3fCombo :=
    ev.solveImplicit (vadd u (vsmul dDeltaT dK2Combo))
      (cf.m_dImpCf 3 3 * dDeltaT) time
  -- Final stage: explicit RHS at u3f; combine all stage contributions by
  -- the table's final weight row into the new state.
  let dKh3Combo := ev.evaluateExplicitRHS du3fCombo (time + cf.m_dTimeCf 2 * dDeltaT)
  let dK3Combo :=
    vadd (vsmul (cf.m_dImpCf 3 3) dK2Combo) (vsmul (cf.m_ddelta) dKh2Combo)
  let du4fCombo :=
    vadd u (vsmul dDeltaT
      (vadd (vadd (vsmul (cf.m_dImpCf 4 2) dK1Combo)
        (vadd (vsmul (cf.m_dImpCf 4 3) dK2Combo) (vsmul (cf.m_dImpCf 4 4) dK3Combo)))
        (vsmul (cf.m_dExpCf 4 4) dKh3Combo)))
  ({ m_dK0Combo := dK0Combo
     m_du1fCombo := du1fCombo
     m_dK1Combo := dK1Combo
     m_dKh1Combo := dKh1Combo
     m_du2fCombo := du2fCombo
     m_dK2Combo := dK2Combo
     m_dKh2Combo := dKh2Combo
     m_du3fCombo := du3fCombo
     m_dK3Combo := dK3Combo
     m_dKh3Combo := dKh3Combo
     m_du4fCombo := du4fCombo }, du4fCombo)

/-- The TimestepSchemeARKode adapter object (TimestepSchemeARKode.h):
its configuration members.  The static `void * ARKodeMem` handle and the
`N_Vector m_Y` view are modelled by the single flag `arkodeMemCreated`,
true once `Initialize` has created the external solver instance. -/
structure TimestepSchemeARKode where
  m_iNVectors : Int
  m_iARKodeButcherTable : Int
  m_iSetButcherTable : Int
  m_dAbsTol : ℚ
  m_dRelTol : ℚ
  m_fFullyExplicit : Bool
  m_fFullyImplicit : Bool
  m_fFixedStepSize : Bool
  m_fAAFP : Bool
  m_iAAFPAccelVec : Int
  m_iNonlinIters : Int
  m_iLinIters : Int
  arkodeMemCreated : Bool

/-- TimestepSchemeARKode::GetComponentDataInstances (returns
`m_iNVectors`). -/
def TimestepSchemeARKode.GetComponentDataInstances
    (s : TimestepSchemeARKode) : Int := s.m_iNVectors

/-- TimestepSchemeARKode::GetTracerDataInstances (returns
`m_iNVectors`). -/
def TimestepSchemeARKode.GetTracerDataInstances
    (s : TimestepSchemeARKode) : Int := s.m_iNVectors

/-- Modelled from the spec: the body of TimestepSchemeARKode::Initialize
lives in TimestepSchemeARKode.cpp, which is not under src (the header only
declares it).  Per spec sections 4.3 and 7, `Initialize` validates the
Butcher-table selection — supplying both a library-named table ID
(`m_iARKodeButcherTable`) and a user-supplied custom table
(`m_iSetButcherTable`) is fatal, and a named table ID the library does not
know (`knownTable` abstracts the library's catalogue) is fatal — and then
creates and configures the external solver instance.  A nonnegative ID
means the corresponding table source was supplied. -/
def TimestepSchemeARKode.Initialize (s : TimestepSchemeARKode)
    (knownTable : Int → Bool) : Except String TimestepSchemeARKode :=
  if 0 ≤ s.m_iARKodeButcherTable ∧ 0 ≤ s.m_iSetButcherTable then
    Except.error "ARKodeButcherTable and SetButcherTable are mutually exclusive"
  else if 0 ≤ s.m_iARKodeButcherTable ∧ knownTable s.m_iARKodeButcherTable = false then
    Except.error "Invalid ARKode Butcher table"
  else
    Except.ok { s with arkodeMemCreated := true }

/-- Modelled from the spec: the body of TimestepSchemeARKode::Step lives
in TimestepSchemeARKode.cpp, which is not under src.  Per spec section
4.3, `Step` delegates the advance to the external solver (abstracted as
`solve`, from the state, time and step size to the advanced state or a
failure) and treats a solver failure as fatal; the adapter's own
configuration members are not modified by stepping. -/
def TimestepSchemeARKode.Step (s : TimestepSchemeARKode)
    (solve : StateVec → ℚ → ℚ → Option StateVec)
    (fFirstStep fLastStep : Bool) (time dDeltaT : ℚ) (u : StateVec) :
    Except String (TimestepSchemeARKode × StateVec) :=
  match solve u time dDeltaT with
  | some u2 => Except.ok (s, u2)
  | none => Except.error "ARKode solver failure"

/-! ### Concrete fixtures used by witnesses and the counterexample -/

/-- A math-function table sending everything to zero. -/
def tfZero : MathFns :=
  { mpi := 0, rsin := fun _ => 0, rcos := fun _ => 0, racos := fun _ => 0,
    rsqrt := fun _ => 0, rexp := fun _ => 0, rlog := fun _ => 0,
    rpow := fun _ _ => 0 }

/-- Physical constants all zero. -/
def physZero : PhysicalConstants :=
  { g := 0, r := 0, omega := 0, earthRadius := 0, p0 := 0,
    rhoThetaFromPressure := fun _ => 0 }

/-- The test case built with perturbation type None. -/
def testNone : BaroclinicWaveJWTest :=
  BaroclinicWaveJWTest.construct 0 0 false 10000
    PerturbationType.PerturbationType_None

/-- The test case built with perturbation type Exp. -/
def testExp : BaroclinicWaveJWTest :=
  BaroclinicWaveJWTest.construct 0 0 false 10000
    PerturbationType.PerturbationType_Exp

/-- Physical constants driving the C3 counterexample: g = 1, R = -1, the
rest zero. -/
def physC3 : PhysicalConstants :=
  { g := 1, r := -1, omega := 0, earthRadius := 0, p0 := 0,
    rhoThetaFromPressure := fun _ => 0 }

/-- Math-function table driving the C3 counterexample: `pow` returns 1 on
the lapse-rate exponent R*LapseRate/g = -1/200 and 0 elsewhere, `log` is
the constant -40000000 (which makes the first Newton step jump from the
initial eta 1e-7 to a converged value above 2), everything else is 0. -/
def tfC3 : MathFns :=
  { mpi := 0, rsin := fun _ => 0, rcos := fun _ => 0, racos := fun _ => 0,
    rsqrt := fun _ => 0, rexp := fun _ => 0,
    rlog := fun _ => -40000000,
    rpow := fun _ y => if y = -(1/200) then 1 else 0 }

/-- A constant state array. -/
def wState : StateVec := fun _ => 7

/-- A constant tracer array. -/
def wTracer : StateVec := fun _ => 9

/-- An ARKode adapter configuration requesting the library-named Butcher
table 999 and no custom table. -/
def arkode999 : TimestepSchemeARKode :=
  { m_iNVectors := 50, m_iARKodeButcherTable := 999, m_iSetButcherTable := -1,
    m_dAbsTol := 1/10^12, m_dRelTol := 1/10^8, m_fFullyExplicit := false,
    m_fFullyImplicit := false, m_fFixedStepSize := true, m_fAAFP := false,
    m_iAAFPAccelVec := 0, m_iNonlinIters := 3, m_iLinIters := 100,
    arkodeMemCreated := false }

/-- An ARKode adapter configuration supplying both a named table and a
custom table. -/
def arkodeBoth : TimestepSchemeARKode :=
  { arkode999 with m_iARKodeButcherTable := 2, m_iSetButcherTable := 3 }

/-- An ARKode adapter configuration with neither table source supplied. -/
def arkodeNoTable : TimestepSchemeARKode :=
  { arkode999 with m_iARKodeButcherTable := -1, m_iSetButcherTable := -1 }

/-- A table catalogue knowing the IDs 0..99. -/
def knownTables100 : Int → Bool := fun id => decide (0 ≤ id ∧ id < 100)

/-! ### Helper lemmas about the EtaFromRLL loop -/

/-- Shifting the Newton iterate sequence by one step. -/
theorem BaroclinicWaveJWTest.newtonIterate_shift (test : BaroclinicWaveJWTest)
    (tf : MathFns) (phys : PhysicalConstants) (dZ dLon dLat e0 : ℚ) (n : ℕ) :
    test.newtonIterate tf phys dZ dLon dLat e0 (n + 1)
      = test.newtonIterate tf phys dZ dLon dLat
          (test.etaNewtonUpdate tf phys dZ dLon dLat e0) n := by
  induction n with
  | zero => rfl
  | succ n ih =>
    rw [BaroclinicWaveJWTest.newtonIterate, ih,
      BaroclinicWaveJWTest.newtonIterate]

/-- When the EtaFromRLL loop exits without the early return, its final
counter is the initial counter plus the iteration budget (so, started at
i = 0 with budget 25, it always ends with i = 25 — the source's
`i == MaxIterations` test is always true there). -/
theorem BaroclinicWaveJWTest.etaLoop_inr_counter (test : BaroclinicWaveJWTest)
    (tf : MathFns) (phys : PhysicalConstants) (dZ dLon dLat : ℚ) :
    ∀ fuel i st j st2,
      test.etaLoop tf phys dZ dLon dLat i fuel st = Sum.inr (j, st2) →
        j = i + fuel := by
  intro fuel
  induction fuel with
  | zero =>
    intro i st j st2 h
    rw [BaroclinicWaveJWTest.etaLoop] at h
    simp only [Sum.inr.injEq, Prod.mk.injEq] at h
    omega
  | succ fuel ih =>
    intro i st j st2 h
    obtain ⟨e, g, t⟩ := st
    rw [BaroclinicWaveJWTest.etaLoop] at h
    by_cases hc :
        |e - test.etaNewtonUpdate tf phys dZ dLon dLat e| < 1/10^13
    · rw [if_pos hc] at h
      exact absurd h (by simp)
    · rw [if_neg hc] at h
      have := ih (i + 1) _ j st2 h
      omega

/-- When the EtaFromRLL loop takes the early `return dNewEta`, the value
returned is a Newton iterate reached within the budget whose distance to
its predecessor is below the convergence constant. -/
theorem BaroclinicWaveJWTest.etaLoop_inl_converged (test : BaroclinicWaveJWTest)
    (tf : MathFns) (phys : PhysicalConstants) (dZ dLon dLat : ℚ) :
    ∀ fuel i e g t out,
      test.etaLoop tf phys dZ dLon dLat i fuel (e, g, t) = Sum.inl out →
        ∃ k < fuel,
          out.1 = test.newtonIterate tf phys dZ dLon dLat e (k + 1)
          ∧ |test.newtonIterate tf phys dZ dLon dLat e k
              - test.newtonIterate tf phys dZ dLon dLat e (k + 1)| < 1/10^13 := by
  intro fuel
  induction fuel with
  | zero =>
    intro i e g t out h
    rw [BaroclinicWaveJWTest.etaLoop] at h
    exact absurd h (by simp)
  | succ fuel ih =>
    intro i e g t out h
    rw [BaroclinicWaveJWTest.etaLoop] at h
    by_cases hc :
        |e - test.etaNewtonUpdate tf phys dZ dLon dLat e| < 1/10^13
    · rw [if_pos hc] at h
      simp only [Sum.inl.injEq] at h
      refine ⟨0, Nat.succ_pos _, ?_, ?_⟩
      · rw [← h]
        simp [BaroclinicWaveJWTest.newtonIterate]
      · simpa [BaroclinicWaveJWTest.newtonIterate] using hc
    · rw [if_neg hc] at h
      obtain ⟨k, hk, h1, h2⟩ := ih (i + 1) _ _ _ out h
      refine ⟨k + 1, by omega, ?_, ?_⟩
      · rw [h1, ← BaroclinicWaveJWTest.newtonIterate_shift]
      · rw [← BaroclinicWaveJWTest.newtonIterate_shift,
          ← BaroclinicWaveJWTest.newtonIterate_shift] at h2
        exact h2

/-! ### Claim theorems -/

/-- C1: For the ARS343 scheme, GetComponentDataInstances() returns 10 and
GetTracerDataInstances() returns 10, for every instance of the scheme and
every call. -/
theorem ARS343_instance_counts (s : TimestepSchemeARS343) :
    s.GetComponentDataInstances = 10 ∧ s.GetTracerDataInstances = 10 :=
  ⟨rfl, rfl⟩

/-- C2: For every input, when EtaFromRLL returns normally its value is the
Newton iterate reached within the 25-iteration budget at the first index
where two consecutive iterates differ by less than 1.0e-13; it never
returns a value that did not meet the convergence criterion (a run that
does not converge raises a fatal error instead). -/
theorem EtaFromRLL_returns_only_converged (test : BaroclinicWaveJWTest)
    (tf : MathFns) (phys : PhysicalConstants) (dZ dLon dLat : ℚ)
    (v g t : ℚ)
    (h : test.EtaFromRLL tf phys dZ dLon dLat = Except.ok (v, g, t)) :
    ∃ k < 25,
      v = test.newtonIterate tf phys dZ dLon dLat (1/10^7) (k + 1)
      ∧ |test.newtonIterate tf phys dZ dLon dLat (1/10^7) k
          - test.newtonIterate tf phys dZ dLon dLat (1/10^7) (k + 1)| < 1/10^13 := by
  unfold BaroclinicWaveJWTest.EtaFromRLL at h
  split at h
  · rename_i out heq
    simp only [Except.ok.injEq] at h
    obtain ⟨k, hk, h1, h2⟩ :=
      test.etaLoop_inl_converged tf phys dZ dLon dLat 25 0 (1/10^7) 0 0 out heq
    subst h
    exact ⟨k, hk, h1, h2⟩
  · rename_i i dEta dGeo dTemp heq
    have hi : i = 0 + 25 :=
      test.etaLoop_inr_counter tf phys dZ dLon dLat 25 0 (1/10^7, 0, 0) i
        (dEta, dGeo, dTemp) heq
    rw [if_pos (by omega : i = 25)] at h
    exact absurd h (by simp)

/-- Witness for C2: a run of EtaFromRLL that returns normally (all math
functions zero, so the very first Newton update is a fixed point). -/
theorem EtaFromRLL_returns_only_converged_witness :
    ∃ k < 25,
      (1/10^7 : ℚ)
          = testNone.newtonIterate tfZero physZero 0 0 0 (1/10^7) (k + 1)
      ∧ |testNone.newtonIterate tfZero physZero 0 0 0 (1/10^7) k
          - testNone.newtonIterate tfZero physZero 0 0 0 (1/10^7) (k + 1)|
            < 1/10^13 :=
  EtaFromRLL_returns_only_converged testNone tfZero physZero 0 0 0
    (1/10^7) 0 0 (by with_unfolding_all rfl)

/-- For C3: whether the run returned normally (no exception raised) with
an eta value strictly greater than 1, i.e. outside [0,1]. -/
def etaAbove1NoError (r : Except String (ℚ × ℚ × ℚ)) : Bool :=
  match r with
  | Except.ok (eta, _, _) => decide (1 < eta)
  | Except.error _ => false

/-- C3 counterexample: a concrete run of EtaFromRLL (constants `physC3`,
math table `tfC3`, dZ = dLon = dLat = 0) whose Newton iteration converges
to an eta value ≈ 2.133 > 1 and returns it normally — no fatal error is
raised even though eta lies outside [0,1], refuting the claim that such a
value always triggers a fatal error. -/
theorem EtaFromRLL_out_of_range_counterexample :
    etaAbove1NoError (testNone.EtaFromRLL tfC3 physC3 0 0 0) = true := by
  with_unfolding_all decide

/-- For C3: whether the result is the "Invalid Eta value" exception. -/
def isInvalidEtaError (r : Except String (ℚ × ℚ × ℚ)) : Bool :=
  match r with
  | Except.error msg => decide (msg = "Invalid Eta value")
  | Except.ok _ => false

/-- C3 amended: the out-of-range check on eta is dead code — EtaFromRLL
never raises the "Invalid Eta value" error (with any message): a normal
return always comes from the convergence branch, which performs no range
check (so out-of-range values are returned normally, see the
counterexample), and loop exhaustion always raises the iteration-count
error first; moreover the source's "Invalid Eta value" message is fixed
text that does not contain the offending value. -/
theorem EtaFromRLL_never_invalid_eta_error (test : BaroclinicWaveJWTest)
    (tf : MathFns) (phys : PhysicalConstants) (dZ dLon dLat : ℚ) :
    isInvalidEtaError (test.EtaFromRLL tf phys dZ dLon dLat) = false := by
  unfold BaroclinicWaveJWTest.EtaFromRLL
  split
  · rfl
  · rename_i i dEta dGeo dTemp heq
    have hi : i = 0 + 25 :=
      test.etaLoop_inr_counter tf phys dZ dLon dLat 25 0 (1/10^7, 0, 0) i
        (dEta, dGeo, dTemp) heq
    rw [if_pos (by omega : i = 25)]
    rfl

/-- C10: EvaluateTopography never reads its longitude argument, so for
fixed math functions, physical constants and latitude, any two longitudes
yield the same surface height. -/
theorem EvaluateTopography_lon_independent (test : BaroclinicWaveJWTest)
    (tf : MathFns) (phys : PhysicalConstants) (dLon1 dLon2 dLat : ℚ) :
    test.EvaluateTopography tf phys dLon1 dLat
      = test.EvaluateTopography tf phys dLon2 dLat := rfl

/-- C8: On every input on which it returns normally,
EvaluateReferenceState writes only entries 0, 2 and 4 of the state
array; every other entry is returned unchanged. -/
theorem EvaluateReferenceState_frame (test : BaroclinicWaveJWTest)
    (tf : MathFns) (phys : PhysicalConstants) (dZ dLon dLat : ℚ)
    (dState s2 : StateVec)
    (h : test.EvaluateReferenceState tf phys dZ dLon dLat dState
          = Except.ok s2)
    (i : ℕ) (h0 : i ≠ 0) (h2 : i ≠ 2) (h4 : i ≠ 4) : s2 i = dState i := by
  unfold BaroclinicWaveJWTest.EvaluateReferenceState at h
  split at h
  · exact absurd h (by simp)
  · rename_i dEta dGeo dTemperature
    simp only [Except.ok.injEq] at h
    subst h
    simp [h0, h2, h4]

/-- Witness for C8: a run of EvaluateReferenceState that returns
normally, leaving entry 3 of a constant-7 state array unchanged. -/
theorem EvaluateReferenceState_frame_witness :
    ∃ s2, testNone.EvaluateReferenceState tfZero physZero 0 0 0 wState
        = Except.ok s2 ∧ s2 3 = 7 := by
  with_unfolding_all
    exact ⟨_, rfl,
      EvaluateReferenceState_frame testNone tfZero physZero 0 0 0 wState _ rfl
        3 (by decide) (by decide) (by decide)⟩

/-- C9: EvaluatePointwiseState first computes the reference state; the
tracer array is never written; when the perturbation type is not Exp the
returned state equals EvaluateReferenceState's output exactly; when it is
Exp, only entry 0 may differ, and only when the great-circle distance
from the perturbation center divided by the perturbation radius is below
1 (at scaled distance at least 1 the state equals the reference state). -/
theorem EvaluatePointwiseState_frame (test : BaroclinicWaveJWTest)
    (tf : MathFns) (phys : PhysicalConstants) (time dZ dLon dLat : ℚ)
    (dState dTracer s2 t2 : StateVec)
    (h : test.EvaluatePointwiseState tf phys time dZ dLon dLat dState dTracer
          = Except.ok (s2, t2)) :
    ∃ s, test.EvaluateReferenceState tf phys dZ dLon dLat dState = Except.ok s
      ∧ t2 = dTracer
      ∧ (∀ i, i ≠ 0 → s2 i = s i)
      ∧ (test.m_ePerturbationType ≠ PerturbationType.PerturbationType_Exp
          → s2 = s)
      ∧ (1 ≤ test.greatCircleRScaled tf dLon dLat → s2 = s) := by
  unfold BaroclinicWaveJWTest.EvaluatePointwiseState at h
  split at h
  · exact absurd h (by simp)
  · rename_i s heq
    refine ⟨s, heq, ?_⟩
    by_cases hexp :
        test.m_ePerturbationType = PerturbationType.PerturbationType_Exp
    · rw [if_pos hexp] at h
      by_cases hlt : test.greatCircleRScaled tf dLon dLat < 1
      · rw [if_pos hlt] at h
        simp only [Except.ok.injEq, Prod.mk.injEq] at h
        obtain ⟨hs, ht⟩ := h
        subst hs
        subst ht
        refine ⟨rfl, ?_, ?_, ?_⟩
        · intro i hi
          simp [hi]
        · intro hne
          exact absurd hexp hne
        · intro hge
          exact absurd hlt (not_lt.mpr hge)
      · rw [if_neg hlt] at h
        simp only [Except.ok.injEq, Prod.mk.injEq] at h
        obtain ⟨hs, ht⟩ := h
        subst hs
        subst ht
        exact ⟨rfl, fun i _ => rfl, fun _ => rfl, fun _ => rfl⟩
    · rw [if_neg hexp] at h
      simp only [Except.ok.injEq, Prod.mk.injEq] at h
      obtain ⟨hs, ht⟩ := h
      subst hs
      subst ht
      exact ⟨rfl, fun i _ => rfl, fun _ => rfl, fun _ => rfl⟩

/-- Witness for C9: a run of EvaluatePointwiseState with the Exp
perturbation type that returns normally; the tracer comes back untouched
and entry 3 agrees with the reference state. -/
theorem EvaluatePointwiseState_frame_witness :
    ∃ s2 t2 s,
      testExp.EvaluatePointwiseState tfZero physZero 0 0 0 0 wState wTracer
          = Except.ok (s2, t2)
      ∧ testExp.EvaluateReferenceState tfZero physZero 0 0 0 wState
          = Except.ok s
      ∧ t2 = wTracer ∧ s2 3 = s 3 := by
  with_unfolding_all
    exact
      (fun ⟨s, hs, ht, hframe, _, _⟩ =>
        ⟨_, _, s, rfl, hs, ht, hframe 3 (by decide)⟩)
      (EvaluatePointwiseState_frame testExp tfZero physZero 0 0 0 0
        wState wTracer _ _ rfl)

/-- C4: selecting a Butcher-table ID unknown to the library makes the
ARKode adapter fail with a fatal error at Initialize, and any stepping
sequenced after Initialize is never reached (the composite run is the
same fatal error). -/
theorem ARKode_unknown_table_fatal_at_Initialize (s : TimestepSchemeARKode)
    (knownTable : Int → Bool)
    (hset : 0 ≤ s.m_iARKodeButcherTable)
    (hunknown : knownTable s.m_iARKodeButcherTable = false) :
    ∃ msg, s.Initialize knownTable = Except.error msg
      ∧ ∀ stepper : TimestepSchemeARKode →
            Except String (TimestepSchemeARKode × StateVec),
          (s.Initialize knownTable).bind stepper = Except.error msg := by
  unfold TimestepSchemeARKode.Initialize
  by_cases hboth : 0 ≤ s.m_iSetButcherTable
  · rw [if_pos ⟨hset, hboth⟩]
    exact ⟨_, rfl, fun stepper => rfl⟩
  · rw [if_neg (fun hc => hboth hc.2), if_pos ⟨hset, hunknown⟩]
    exact ⟨_, rfl, fun stepper => rfl⟩

/-- Witness for C4: requesting table 999 against a catalogue knowing
only 0..99 fails at Initialize and blocks any subsequent stepping. -/
theorem ARKode_unknown_table_fatal_witness :
    ∃ msg, arkode999.Initialize knownTables100 = Except.error msg
      ∧ ∀ stepper : TimestepSchemeARKode →
            Except String (TimestepSchemeARKode × StateVec),
          (arkode999.Initialize knownTables100).bind stepper
            = Except.error msg :=
  ARKode_unknown_table_fatal_at_Initialize arkode999 knownTables100
    (by decide) (by decide)

/-- C5: supplying both a library-named Butcher table and a user-supplied
custom Butcher table is rejected with a fatal error at Initialize; in
particular Initialize never succeeds with both table sources active. -/
theorem ARKode_both_tables_fatal_at_Initialize (s : TimestepSchemeARKode)
    (knownTable : Int → Bool)
    (h1 : 0 ≤ s.m_iARKodeButcherTable) (h2 : 0 ≤ s.m_iSetButcherTable) :
    s.Initialize knownTable
        = Except.error
            "ARKodeButcherTable and SetButcherTable are mutually exclusive"
      ∧ ∀ s2, s.Initialize knownTable ≠ Except.ok s2 := by
  constructor
  · unfold TimestepSchemeARKode.Initialize
    rw [if_pos ⟨h1, h2⟩]
  · intro s2 hok
    unfold TimestepSchemeARKode.Initialize at hok
    rw [if_pos ⟨h1, h2⟩] at hok
    exact absurd hok (by simp)

/-- Witness for C5: a configuration with named table 2 and custom table 3
is rejected at Initialize. -/
theorem ARKode_both_tables_fatal_witness :
    arkodeBoth.Initialize knownTables100
        = Except.error
            "ARKodeButcherTable and SetButcherTable are mutually exclusive"
      ∧ ∀ s2, arkodeBoth.Initialize knownTables100 ≠ Except.ok s2 :=
  ARKode_both_tables_fatal_at_Initialize arkodeBoth knownTables100
    (by decide) (by decide)

/-- C6: two ARS343 Step calls agreeing on scheme state, coefficients,
RHS evaluator, time, step size and incoming state produce the same result
for any values of the fFirstStep/fLastStep flags: the flags do not alter
the per-step algorithm. -/
theorem ARS343_Step_flag_independent (s : TimestepSchemeARS343)
    (cf : ARS343Coeffs) (ev : RHSEvaluator) (f1 l1 f2 l2 : Bool)
    (time dDeltaT : ℚ) (u : StateVec) :
    s.Step cf ev f1 l1 time dDeltaT u = s.Step cf ev f2 l2 time dDeltaT u :=
  rfl

/-- C7: the values returned by GetComponentDataInstances and
GetTracerDataInstances are stable across the operations of both schemes:
an ARS343 Step leaves them unchanged, and an ARKode Initialize followed
by a successful Step leaves them unchanged. -/
theorem TimestepScheme_instance_counts_stable
    (s : TimestepSchemeARS343) (cf : ARS343Coeffs) (ev : RHSEvaluator)
    (fFirst fLast : Bool) (time dDeltaT : ℚ) (u : StateVec)
    (a : TimestepSchemeARKode) (knownTable : Int → Bool)
    (solve : StateVec → ℚ → ℚ → Option StateVec)
    (a1 : TimestepSchemeARKode)
    (hinit : a.Initialize knownTable = Except.ok a1)
    (a2 : TimestepSchemeARKode) (u2 : StateVec)
    (hstep : a1.Step solve fFirst fLast time dDeltaT u = Except.ok (a2, u2)) :
    ((s.Step cf ev fFirst fLast time dDeltaT u).1.GetComponentDataInstances
        = s.GetComponentDataInstances
      ∧ (s.Step cf ev fFirst fLast time dDeltaT u).1.GetTracerDataInstances
        = s.GetTracerDataInstances)
    ∧ (a1.GetComponentDataInstances = a.GetComponentDataInstances
      ∧ a1.GetTracerDataInstances = a.GetTracerDataInstances)
    ∧ (a2.GetComponentDataInstances = a.GetComponentDataInstances
      ∧ a2.GetTracerDataInstances = a.GetTracerDataInstances) := by
  have hinit2 : a1.m_iNVectors = a.m_iNVectors := by
    unfold TimestepSchemeARKode.Initialize at hinit
    split at hinit
    · exact absurd hinit (by simp)
    · split at hinit
      · exact absurd hinit (by simp)
      · simp only [Except.ok.injEq] at hinit
        subst hinit
        rfl
  have hstep2 : a2.m_iNVectors = a1.m_iNVectors := by
    unfold TimestepSchemeARKode.Step at hstep
    split at hstep
    · simp only [Except.ok.injEq, Prod.mk.injEq] at hstep
      obtain ⟨ha, -⟩ := hstep
      subst ha
      rfl
    · exact absurd hstep (by simp)
  exact ⟨⟨rfl, rfl⟩, ⟨hinit2, hinit2⟩,
    ⟨hstep2.trans hinit2, hstep2.trans hinit2⟩⟩

/-- An RHS evaluator returning its input unchanged. -/
def evId : RHSEvaluator :=
  { evaluateExplicitRHS := fun u _ => u
    evaluateImplicitRHS := fun u _ => u
    solveImplicit := fun u _ _ => u }

/-- An all-zero ARS343 coefficient record. -/
def cfZero : ARS343Coeffs :=
  { m_dgamma := 0, m_ddelta := 0, m_dTimeCf := fun _ => 0,
    m_dExpCf := fun _ _ => 0, m_dImpCf := fun _ _ => 0 }

/-- An ARS343 scheme object with zeroed stage buffers. -/
def sARS : TimestepSchemeARS343 :=
  { m_dK0Combo := fun _ => 0
    m_du1fCombo := fun _ => 0
    m_dK1Combo := fun _ => 0
    m_dKh1Combo := fun _ => 0
    m_du2fCombo := fun _ => 0
    m_dK2Combo := fun _ => 0
    m_dKh2Combo := fun _ => 0
    m_du3fCombo := fun _ => 0
    m_dK3Combo := fun _ => 0
    m_dKh3Combo := fun _ => 0
    m_du4fCombo := fun _ => 0 }

/-- An external solver stub returning its input state. -/
def solveId : StateVec → ℚ → ℚ → Option StateVec := fun u _ _ => some u

/-- Witness for C7: concrete runs of ARS343 Step and of ARKode
Initialize-then-Step, with the instance counts unchanged throughout. -/
theorem TimestepScheme_instance_counts_stable_witness :
    ((sARS.Step cfZero evId true false 0 1 wState).1.GetComponentDataInstances
        = sARS.GetComponentDataInstances
      ∧ (sARS.Step cfZero evId true false 0 1 wState).1.GetTracerDataInstances
        = sARS.GetTracerDataInstances)
    ∧ (({ arkodeNoTable with arkodeMemCreated := true }
          : TimestepSchemeARKode).GetComponentDataInstances
          = arkodeNoTable.GetComponentDataInstances
      ∧ ({ arkodeNoTable with arkodeMemCreated := true }
          : TimestepSchemeARKode).GetTracerDataInstances
          = arkodeNoTable.GetTracerDataInstances)
    ∧ (({ arkodeNoTable with arkodeMemCreated := true }
          : TimestepSchemeARKode).GetComponentDataInstances
          = arkodeNoTable.GetComponentDataInstances
      ∧ ({ arkodeNoTable with arkodeMemCreated := true }
          : TimestepSchemeARKode).GetTracerDataInstances
          = arkodeNoTable.GetTracerDataInstances) :=
  TimestepScheme_instance_counts_stable sARS cfZero evId true false 0 1 wState
    arkodeNoTable knownTables100 solveId
    { arkodeNoTable with arkodeMemCreated := true } rfl
    { arkodeNoTable with arkodeMemCreated := true } wState rfl
